import Mathlib

set_option maxHeartbeats 1000000

/-!
Shallow embedding of the admin portal's HTTP client, request/response
interceptors, auth token store, token validator and resource stores
(`src/api/http.ts`, `src/api/interceptor.ts`, `src/stores/useAuthStore.ts`,
`src/services/autoLoginService.ts`, `src/stores/logoStore.ts`,
`src/stores/contentStore.ts`, `src/stores/imageStore.ts`,
`src/stores/colorStore.ts`).

Modelling conventions:
- Dynamic JavaScript/JSON values that the code inspects at runtime are
  modelled by `JsValue`; JS truthiness is `JsValue.truthy`.
- Browser builtins are modelled as explicit parameters: `atob` composed with
  `JSON.parse` becomes a `String → Option JsValue` parameter (`none` models a
  thrown decoding/parsing exception), and `fetch` becomes a
  `String → InterceptorRequestConfig → Except JsError Response` parameter
  (`Except.error` models a transport-level rejection with no HTTP response).
- A thrown JS value is `JsError`: either an `Error` object carrying a message
  or some non-`Error` value.
- `window.location.href = target` is modelled by returning `some target` as a
  redirect component; Pinia store actions become explicit state-passing
  functions; the outcome of the awaited service call is an `Except JsError`
  parameter since the network is external to the embedded code.
- JS string `split(".")` is `splitOnDot` (single-character separator
  semantics); JS object property update/delete on a `Record<string,string>`
  is `recordSet` / `recordDelete` on an insertion-ordered association list.
-/

/-- A JSON / JavaScript runtime value, as far as the embedded code inspects
one: null, booleans, numbers (the code only ever compares and scales them,
so integers suffice for every value the claims exercise), strings, arrays
and objects with insertion-ordered fields. -/
inductive JsValue where
  | nullV : JsValue
  | boolV : Bool → JsValue
  | numV : Int → JsValue
  | strV : String → JsValue
  | arrV : List JsValue → JsValue
  | objV : List (String × JsValue) → JsValue

/-- JS truthiness: `null`, `false`, `0` and `""` are falsy; arrays and
objects are always truthy. -/
def JsValue.truthy : JsValue → Bool
  | .nullV => false
  | .boolV b => b
  | .numV n => n != 0
  | .strV s => s != ""
  | .arrV _ => true
  | .objV _ => true

/-- JS property access `v[key]`: `some` for a present field of an object,
`none` (undefined) otherwise. -/
def JsValue.getProp : JsValue → String → Option JsValue
  | .objV fields, key => (fields.find? (fun f => f.fst == key)).map (fun f => f.snd)
  | _, _ => none

/-- JS truthiness of a `string | null` value (`!!x`): null and the empty
string are falsy. -/
def strTruthy : Option String → Bool
  | none => false
  | some s => s != ""

/-- JS assignment `record[key] = value` on a `Record<string, string>`:
overwrites an existing key in place, otherwise appends. -/
def recordSet : List (String × String) → String → String → List (String × String)
  | [], key, value => [(key, value)]
  | (k, v) :: rest, key, value =>
    if k == key then (key, value) :: rest else (k, v) :: recordSet rest key value

/-- JS `delete record[key]` on a `Record<string, string>`. -/
def recordDelete (record : List (String × String)) (key : String) : List (String × String) :=
  record.filter (fun f => f.fst != key)

/-- A thrown JavaScript value: an `Error` object with its `.message`, or any
non-`Error` value (the code only distinguishes these two cases via
`err instanceof Error`). -/
inductive JsError where
  | errorObj : String → JsError
  | nonError : JsError
deriving DecidableEq

/-- `err instanceof Error ? err.message : fallback`. -/
def errMsg (err : JsError) (fallback : String) : String :=
  match err with
  | .errorObj m => m
  | .nonError => fallback

/-! ## Token Store — `src/stores/useAuthStore.ts` -/

/-- The persisted auth session state (interface `AuthState` plus the refs of
the store definition). -/
structure AuthState where
  accessToken : Option String
  refreshToken : Option String
  email : Option String
  isInitialPassword : Bool
  savedEmail : Option String
deriving DecidableEq

/-- Initial store state: every ref starts at `null` / `false`. -/
def initialAuthState : AuthState :=
  { accessToken := none
    refreshToken := none
    email := none
    isInitialPassword := false
    savedEmail := none }

/-- Getter `isLoggedIn = computed(() => !!accessToken.value)`. -/
def isLoggedIn (s : AuthState) : Bool :=
  strTruthy s.accessToken

/-- Getter `authHeader`: null when the token is falsy, otherwise
`"Bearer " + accessToken`. -/
def authHeader (s : AuthState) : Option String :=
  match s.accessToken with
  | none => none
  | some t => if t = "" then none else some ("Bearer " ++ t)

/-- Argument of `setAuthData`: `Partial<AuthState>` — an outer `none` models
an `undefined` (absent) field. -/
structure AuthPartial where
  accessToken : Option (Option String) := none
  refreshToken : Option (Option String) := none
  email : Option (Option String) := none
  isInitialPassword : Option Bool := none
  savedEmail : Option (Option String) := none
deriving DecidableEq

/-- `setAuthData(authData)`: each field is assigned only when it is not
`undefined`. -/
def setAuthData (s : AuthState) (authData : AuthPartial) : AuthState :=
  { accessToken := authData.accessToken.getD s.accessToken
    refreshToken := authData.refreshToken.getD s.refreshToken
    email := authData.email.getD s.email
    isInitialPassword := authData.isInitialPassword.getD s.isInitialPassword
    savedEmail := authData.savedEmail.getD s.savedEmail }

/-- `saveEmail(emailToSave)`. -/
def saveEmail (s : AuthState) (emailToSave : String) : AuthState :=
  { s with savedEmail := some emailToSave }

/-- `clearSavedEmail()`. -/
def clearSavedEmail (s : AuthState) : AuthState :=
  { s with savedEmail := none }

/-- `updateAccessToken(newAccessToken)`. -/
def updateAccessToken (s : AuthState) (newAccessToken : String) : AuthState :=
  { s with accessToken := some newAccessToken }

/-- `logout()`: clears the tokens, the email and the initial-password flag;
`savedEmail` is deliberately kept (source comment: 아이디 저장 기능). -/
def logout (s : AuthState) : AuthState :=
  { s with
    accessToken := none
    refreshToken := none
    email := none
    isInitialPassword := false }

/-- `forceLogout()`: same as `logout` but also clears `savedEmail`. -/
def forceLogout (_s : AuthState) : AuthState :=
  { accessToken := none
    refreshToken := none
    email := none
    isInitialPassword := false
    savedEmail := none }

/-- One invocation of a Token Store action, for reasoning about reachable
session states. -/
inductive AuthOp where
  | setAuthData : AuthPartial → AuthOp
  | saveEmail : String → AuthOp
  | clearSavedEmail : AuthOp
  | updateAccessToken : String → AuthOp
  | logout : AuthOp
  | forceLogout : AuthOp
deriving DecidableEq

/-- Apply one Token Store action to the session state. -/
def applyAuthOp (s : AuthState) : AuthOp → AuthState
  | .setAuthData p => setAuthData s p
  | .saveEmail e => saveEmail s e
  | .clearSavedEmail => clearSavedEmail s
  | .updateAccessToken t => updateAccessToken s t
  | .logout => logout s
  | .forceLogout => forceLogout s

/-- Run a sequence of Token Store actions from a state. -/
def runAuthOps (s : AuthState) (ops : List AuthOp) : AuthState :=
  ops.foldl applyAuthOp s

/-- The action does not install an empty-string access token (callers of the
store always pass server-issued token strings, never `""`). -/
def AuthOp.avoidsEmptyToken : AuthOp → Prop
  | .setAuthData p => p.accessToken ≠ some (some "")
  | .updateAccessToken t => t ≠ ""
  | _ => True

instance (op : AuthOp) : Decidable op.avoidsEmptyToken := by
  cases op <;> simp only [AuthOp.avoidsEmptyToken] <;> infer_instance

/-! ## Request/response interceptors — `src/api/interceptor.ts` -/

/-- A request body: a JSON string or a `FormData` instance. -/
inductive RequestBody where
  | str : String → RequestBody
  | formData : RequestBody
deriving DecidableEq

/-- `InterceptorRequestConfig`: method, headers map and body, each possibly
absent. -/
structure InterceptorRequestConfig where
  method : Option String := none
  headers : Option (List (String × String)) := none
  body : Option RequestBody := none
deriving DecidableEq

/-- `requestInterceptor(config)`: reads the token from the auth store; when
it is falsy the config is returned unchanged, otherwise
`config.headers["Authorization"] = "Bearer " + token` (creating the headers
map if absent).  The FormData branch only logs — the `Content-Type` delete
in the source is commented out — so it has no observable effect. -/
def requestInterceptor (authStore : AuthState) (config : InterceptorRequestConfig) :
    InterceptorRequestConfig :=
  match authStore.accessToken with
  | none => config
  | some token =>
    if token = "" then config
    else
      let headers := recordSet (config.headers.getD []) ("Authorization") ("Bearer " ++ token)
      { config with headers := some headers }

/-- A received HTTP response: its status and the result of
`clonedResponse.json()` (`none` models a JSON parse failure). -/
structure Response where
  status : Nat
  jsonBody : Option JsValue

/-- `response.ok` of the Fetch API: status in the range 200–299. -/
def respOk (response : Response) : Bool :=
  200 ≤ response.status && response.status ≤ 299

/-- Normalized success payload (`SuccessResponse`, `success: true`). -/
structure SuccessResponse where
  status : Nat
  data : JsValue
  message : JsValue

/-- Normalized error payload (`ErrorResponse`, `success: false`,
`data: null`). -/
structure ErrorResponse where
  status : Nat
  message : JsValue

/-- `InterceptorResponse`: the success/failure tagged union. -/
inductive InterceptorResponse where
  | success : SuccessResponse → InterceptorResponse
  | failure : ErrorResponse → InterceptorResponse

/-- `handleSuccess(data, status)`: `data: data.data || data`,
`message: data.message || "Success"` (JS `||`, i.e. truthiness fallback). -/
def handleSuccess (data : JsValue) (status : Nat) : SuccessResponse :=
  { status := status
    data :=
      match data.getProp ("data") with
      | some d => if d.truthy then d else data
      | none => data
    message :=
      match data.getProp ("message") with
      | some m => if m.truthy then m else .strV ("Success")
      | none => .strV ("Success") }

/-- `handleError(data, status)`: `message: data.message || "Error " + status`. -/
def handleError (data : JsValue) (status : Nat) : ErrorResponse :=
  { status := status
    message :=
      match data.getProp ("message") with
      | some m => if m.truthy then m else .strV ("Error " ++ toString status)
      | none => .strV ("Error " ++ toString status) }

/-- `responseInterceptor(response)`: parses the body (tolerating failure as
`{}`), then classifies: 2xx → `handleSuccess`; 401 → `authStore.logout()`,
redirect to `"/"`, `handleError`; otherwise `handleError`.  Returns the
resulting auth-store state, the redirect target (if any) and the normalized
response. -/
def responseInterceptor (authStore : AuthState) (response : Response) :
    AuthState × Option String × InterceptorResponse :=
  let data := response.jsonBody.getD (JsValue.objV [])
  if respOk response then
    (authStore, none, .success (handleSuccess data response.status))
  else if response.status = 401 then
    (logout authStore, some ("/"), .failure (handleError data response.status))
  else
    (authStore, none, .failure (handleError data response.status))

/-! ## HTTP client core — `src/api/http.ts` -/

/-- `DEFAULT_HEADERS` from `src/utils/constants.ts`. -/
def DEFAULT_HEADERS : List (String × String) :=
  [(("Content-Type"), ("application/json"))]

/-- Caller-supplied `RequestOptions` (absent field = `undefined`, i.e. the
key is not spread into the config). -/
structure RequestOptions where
  method : Option String := none
  headers : Option (List (String × String)) := none
  body : Option RequestBody := none
deriving DecidableEq

/-- JS `url.startsWith("http")`. -/
def jsStartsWithHttp (url : String) : Bool :=
  (("http" : String).toList).isPrefixOf url.toList

/-- URL resolution step of `request`: relative URLs get the configured API
base prepended when that base is truthy (non-empty). -/
def resolveUrl (apiBaseUrl : String) (url : String) : String :=
  if jsStartsWithHttp url then url
  else if apiBaseUrl ≠ "" then apiBaseUrl ++ url
  else url

/-- Config-merge step of `request`:
`{ method: "GET", headers: {...DEFAULT_HEADERS}, ...options }`. -/
def buildConfig (options : RequestOptions) : InterceptorRequestConfig :=
  { method := some (options.method.getD ("GET"))
    headers := some (options.headers.getD DEFAULT_HEADERS)
    body := options.body }

/-- `NetworkError`: the transport-failure result of `request`
(`success: false`, `data: null` are implicit in the shape). -/
structure NetworkError where
  status : Nat
  code : String
  message : String
deriving DecidableEq

/-- The value `request` resolves with: a normalized interceptor response or a
transport-level `NetworkError`. -/
inductive RequestResult where
  | intercepted : InterceptorResponse → RequestResult
  | networkError : NetworkError → RequestResult

/-- `request(url, options)`: resolves the URL, merges defaults, runs the
request interceptor (using its returned config for the call), then either
maps a received response through `responseInterceptor` or catches a
transport-level rejection and resolves with
`{success:false, status:0, code:"NETWORK_ERROR", message}` — it never
re-throws.  `fetchFn` is the network oracle applied to the resolved URL and
intercepted config. -/
def request (apiBaseUrl : String) (authStore : AuthState) (url : String)
    (options : RequestOptions)
    (fetchFn : String → InterceptorRequestConfig → Except JsError Response) :
    AuthState × Option String × RequestResult :=
  let fullUrl := resolveUrl apiBaseUrl url
  let config := buildConfig options
  let configAfterInterceptor := requestInterceptor authStore config
  match fetchFn fullUrl configAfterInterceptor with
  | .error err =>
    let errorMessage :=
      match err with
      | .errorObj m => m
      | .nonError => "Unknown error"
    (authStore, none,
      .networkError
        { status := 0
          code := ("NETWORK_ERROR")
          message := if errorMessage = "" then ("Network error") else errorMessage })
  | .ok response =>
    let r := responseInterceptor authStore response
    (r.fst, r.snd.fst, .intercepted r.snd.snd)

/-! ## Token validator — `src/services/autoLoginService.ts` -/

/-- JS `split` with the single-character separator `"."` over a character
list: `"a..c"` splits to `["a","","c"]`, `""` to `[""]`. -/
def splitDotChars : List Char → List (List Char)
  | [] => [[]]
  | c :: cs =>
    let rest := splitDotChars cs
    if c = '.' then [] :: rest
    else
      match rest with
      | [] => [[c]]
      | g :: gs => (c :: g) :: gs

/-- `token.split(".")`. -/
def splitOnDot (s : String) : List String :=
  (splitDotChars s.toList).map (fun g => String.mk g)

/-- `isTokenValid(token)`: falsy token → false; not exactly three
dot-separated parts → false; `JSON.parse(atob(parts[1]))` throwing → false
(caught); then `if (payload.exp)` — a truthiness test, so an absent *or
falsy* `exp` yields true — and for a truthy numeric `exp` the token is
invalid exactly when `now + 5*60*1000 > exp * 1000`.  A truthy non-numeric
`exp` makes both JS comparisons false (NaN), landing on `return true`
(numeric-string coercion is not modelled; no claim exercises it). -/
def isTokenValid (parsePayload : String → Option JsValue) (now : Int)
    (token : Option String) : Bool :=
  match token with
  | none => false
  | some t =>
    if t = "" then false
    else
      match splitOnDot t with
      | [_, payloadPart, _] =>
        match parsePayload payloadPart with
        | none => false
        | some payload =>
          match payload.getProp ("exp") with
          | some expVal =>
            if expVal.truthy then
              match expVal with
              | .numV exp => if now + 5 * 60 * 1000 > exp * 1000 then false else true
              | _ => true
            else true
          | none => true
      | _ => false

/-- `decodeToken(token)`: the same falsy/three-part/parse pipeline but
returning the decoded payload (`none` on any failure). -/
def decodeToken (parsePayload : String → Option JsValue) (token : Option String) :
    Option JsValue :=
  match token with
  | none => none
  | some t =>
    if t = "" then none
    else
      match splitOnDot t with
      | [_, payloadPart, _] => parsePayload payloadPart
      | _ => none

/-! ## Generic store-operation result

Each Pinia store action is embedded as a function from the pre-state (and
the outcome of the awaited service call) to: the state in effect at the
moment the service call is issued (`callState`, `none` when the action
returns before reaching any service call), the final state after the
`finally` block, and the action's own outcome (`Except.error` models the
re-thrown rejection). -/

structure StoreOpResult (σ : Type) (ρ : Type) where
  callState : Option σ
  state : σ
  result : Except JsError ρ

/-! ## Logo store — `src/stores/logoStore.ts` -/

/-- Interface `Logo` from `src/types/index.ts`. -/
structure Logo where
  id : String
  officeCode : String
  logoUrl : String
  logoName : String
  order : Int
  isSelected : Bool
  uploadedAt : String
  uploadedBy : String
  isDeleted : Option Bool := none
  createdAt : String
  updatedAt : String
deriving DecidableEq

/-- The logo store's state refs. -/
structure LogoState where
  logos : List Logo
  selectedLogoId : Option String
  loading : Bool
  error : Option String
  isDeploying : Bool
  deployError : Option String
deriving DecidableEq

/-- `fetchLogos(office)`: entry sets `loading=true`, `error=null`; on success
replaces `logos` and recomputes `selectedLogoId` from the first selected
logo; on failure records the message and re-throws; `finally` clears
`loading`. -/
def fetchLogos (_office : String) (s : LogoState)
    (call : Except JsError (List Logo)) : StoreOpResult LogoState Unit :=
  let s1 : LogoState := { s with loading := true, error := none }
  match call with
  | .ok list =>
    let selected := list.find? (fun logo => logo.isSelected)
    let s2 := { s1 with
      logos := list
      selectedLogoId := match selected with | some logo => some logo.id | none => none }
    { callState := some s1, state := { s2 with loading := false }, result := .ok () }
  | .error err =>
    let s2 := { s1 with error := some (errMsg err ("로고 목록 조회 실패")) }
    { callState := some s1, state := { s2 with loading := false }, result := .error err }

/-- `uploadLogo(office, file)`: on success pushes the returned logo. -/
def uploadLogo (_office : String) (s : LogoState)
    (call : Except JsError Logo) : StoreOpResult LogoState Logo :=
  let s1 : LogoState := { s with loading := true, error := none }
  match call with
  | .ok newLogo =>
    let s2 := { s1 with logos := s1.logos ++ [newLogo] }
    { callState := some s1, state := { s2 with loading := false }, result := .ok newLogo }
  | .error err =>
    let s2 := { s1 with error := some (errMsg err ("로고 업로드 실패")) }
    { callState := some s1, state := { s2 with loading := false }, result := .error err }

/-- `selectLogo(logoId, office)`: on success sets every cached logo's
`isSelected` to `logo.id === logoId` and records `selectedLogoId`. -/
def selectLogo (logoId : String) (_office : String) (s : LogoState)
    (call : Except JsError Unit) : StoreOpResult LogoState Unit :=
  let s1 : LogoState := { s with loading := true, error := none }
  match call with
  | .ok _ =>
    let s2 := { s1 with
      logos := s1.logos.map (fun (logo : Logo) => { logo with isSelected := logo.id == logoId })
      selectedLogoId := some logoId }
    { callState := some s1, state := { s2 with loading := false }, result := .ok () }
  | .error err =>
    let s2 := { s1 with error := some (errMsg err ("로고 선택 실패")) }
    { callState := some s1, state := { s2 with loading := false }, result := .error err }

/-- `deleteLogo(logoId, office)`: on success filters the logo out and clears
`selectedLogoId` when it pointed at the deleted logo. -/
def deleteLogo (logoId : String) (_office : String) (s : LogoState)
    (call : Except JsError Unit) : StoreOpResult LogoState Unit :=
  let s1 : LogoState := { s with loading := true, error := none }
  match call with
  | .ok _ =>
    let s2 := { s1 with
      logos := s1.logos.filter (fun logo => logo.id != logoId)
      selectedLogoId := if s1.selectedLogoId == some logoId then none else s1.selectedLogoId }
    { callState := some s1, state := { s2 with loading := false }, result := .ok () }
  | .error err =>
    let s2 := { s1 with error := some (errMsg err ("로고 삭제 실패")) }
    { callState := some s1, state := { s2 with loading := false }, result := .error err }

/-! ## Content (card) store — `src/stores/contentStore.ts`, second (API)
variant of the file, the one the persisted `content-store` paths belong to -/

/-- `CardType` discriminant. -/
inductive CardType where
  | chatCard : CardType
  | questionCard : CardType
  | serviceCard : CardType
deriving DecidableEq

/-- Interface `Card` from `src/types/index.ts` (the `metadata` grab-bag is
omitted: no embedded operation reads or writes it). -/
structure Card where
  id : String
  office : Option String := none
  officeCode : Option String := none
  cardType : CardType
  displayOrder : Option Int := none
  name : String
  description : Option String := none
  cardThumbnailUrl : Option String := none
  agentId : Option String := none
  questionList : Option (List String) := none
  serviceContent : Option String := none
  content : Option String := none
  isDeleted : Option Bool := none
  createdAt : Option String := none
  updatedAt : Option String := none
deriving DecidableEq

/-- Interface `Agent` (fields beyond `id`/`name` are inert here). -/
structure Agent where
  id : String
  name : String
deriving DecidableEq

/-- The content store's state refs. -/
structure ContentState where
  cards : List Card
  agents : List Agent
  currentEditingCard : Option Card
  loading : Bool
  error : Option String
  isDeploying : Bool
  deployError : Option String
deriving DecidableEq

/-- `fetchCards(office)`. -/
def fetchCards (_office : String) (s : ContentState)
    (call : Except JsError (List Card)) : StoreOpResult ContentState Unit :=
  let s1 : ContentState := { s with loading := true, error := none }
  match call with
  | .ok list =>
    { callState := some s1, state := { s1 with cards := list, loading := false }
      result := .ok () }
  | .error err =>
    let s2 := { s1 with error := some (errMsg err ("카드 목록 조회 실패")) }
    { callState := some s1, state := { s2 with loading := false }, result := .error err }

/-- `fetchAgents()`. -/
def fetchAgents (s : ContentState)
    (call : Except JsError (List Agent)) : StoreOpResult ContentState Unit :=
  let s1 : ContentState := { s with loading := true, error := none }
  match call with
  | .ok list =>
    { callState := some s1, state := { s1 with agents := list, loading := false }
      result := .ok () }
  | .error err =>
    let s2 := { s1 with error := some (errMsg err ("에이전트 목록 조회 실패")) }
    { callState := some s1, state := { s2 with loading := false }, result := .error err }

/-- `addCard(cardData, thumbnailFile)`: on success pushes the returned card. -/
def addCard (s : ContentState)
    (call : Except JsError Card) : StoreOpResult ContentState Card :=
  let s1 : ContentState := { s with loading := true, error := none }
  match call with
  | .ok newCard =>
    { callState := some s1, state := { s1 with cards := s1.cards ++ [newCard], loading := false }
      result := .ok newCard }
  | .error err =>
    let s2 := { s1 with error := some (errMsg err ("카드 추가 실패")) }
    { callState := some s1, state := { s2 with loading := false }, result := .error err }

/-- `findIndex` + in-place assignment: replaces the first card whose id
matches (no change when none matches). -/
def updateFirstById (cards : List Card) (cardId : String) (updated : Card) : List Card :=
  match cards with
  | [] => []
  | c :: rest =>
    if c.id == cardId then updated :: rest else c :: updateFirstById rest cardId updated

/-- `updateCard(cardId, office, cardData)`: on success replaces the matching
cached card (silently dropped when absent) and returns the server's card. -/
def updateCard (cardId : String) (_office : String) (s : ContentState)
    (call : Except JsError Card) : StoreOpResult ContentState Card :=
  let s1 : ContentState := { s with loading := true, error := none }
  match call with
  | .ok updated =>
    { callState := some s1
      state := { s1 with cards := updateFirstById s1.cards cardId updated, loading := false }
      result := .ok updated }
  | .error err =>
    let s2 := { s1 with error := some (errMsg err ("카드 수정 실패")) }
    { callState := some s1, state := { s2 with loading := false }, result := .error err }

/-- `deleteCard(cardId, office)`. -/
def deleteCard (cardId : String) (_office : String) (s : ContentState)
    (call : Except JsError Unit) : StoreOpResult ContentState Unit :=
  let s1 : ContentState := { s with loading := true, error := none }
  match call with
  | .ok _ =>
    { callState := some s1
      state := { s1 with cards := s1.cards.filter (fun c => c.id != cardId), loading := false }
      result := .ok () }
  | .error err =>
    let s2 := { s1 with error := some (errMsg err ("카드 삭제 실패")) }
    { callState := some s1, state := { s2 with loading := false }, result := .error err }

/-- `cards.value.find(c => c.id === id)` followed by
`card.displayOrder = index`: updates the first matching card only. -/
def setOrderFirst (cards : List Card) (cardId : String) (idx : Int) : List Card :=
  match cards with
  | [] => []
  | c :: rest =>
    if c.id == cardId then { c with displayOrder := some idx } :: rest
    else c :: setOrderFirst rest cardId idx

/-- `cardIds.forEach((id, index) => ...)` of `updateCardOrder`. -/
def applyOrderAux (cards : List Card) (ids : List String) (i : Nat) : List Card :=
  match ids with
  | [] => cards
  | id :: rest => applyOrderAux (setOrderFirst cards id (Int.ofNat i)) rest (i + 1)

/-- The local-state update of `updateCardOrder` on success. -/
def applyOrder (cards : List Card) (cardIds : List String) : List Card :=
  applyOrderAux cards cardIds 0

/-- `updateCardOrder(cardIds, office)`: on success assigns each listed id's
first matching cached card the id's index as `displayOrder`. -/
def updateCardOrder (cardIds : List String) (_office : String) (s : ContentState)
    (call : Except JsError Unit) : StoreOpResult ContentState Unit :=
  let s1 : ContentState := { s with loading := true, error := none }
  match call with
  | .ok _ =>
    { callState := some s1
      state := { s1 with cards := applyOrder s1.cards cardIds, loading := false }
      result := .ok () }
  | .error err =>
    let s2 := { s1 with error := some (errMsg err ("카드 순서 변경 실패")) }
    { callState := some s1, state := { s2 with loading := false }, result := .error err }

/-! ## Image store — `src/stores/imageStore.ts` -/

/-- One element of the batch-upload result list as the store consumes it
(`result.success`, `result.imageType`, `result.imageUrl`). -/
structure BatchUploadResult where
  imageType : String
  imageUrl : String
  success : Bool
deriving DecidableEq

/-- The image store's state refs (`uploadedImages` is a
`Record<string, string>` keyed by image type). -/
structure ImageState where
  uploadedImages : List (String × String)
  loading : Bool
  error : Option String
  uploadProgress : Int
  uploadingFileName : Option String
deriving DecidableEq

/-- `uploadImage(office, imageType, file, options)`: entry sets
`loading=true`, `uploadingFileName=file.name`, `uploadProgress=0`,
`error=null`; on success stores the returned url under the image type and
sets progress to 100; `finally` clears `loading` and `uploadingFileName`. -/
def uploadImage (_office : String) (imageType : String) (fileName : String)
    (s : ImageState) (call : Except JsError String) : StoreOpResult ImageState String :=
  let s1 : ImageState := { s with
    loading := true
    uploadingFileName := some fileName
    uploadProgress := 0
    error := none }
  match call with
  | .ok url =>
    let s2 := { s1 with
      uploadedImages := recordSet s1.uploadedImages imageType url
      uploadProgress := 100 }
    { callState := some s1
      state := { s2 with loading := false, uploadingFileName := none }
      result := .ok url }
  | .error err =>
    let s2 := { s1 with error := some (errMsg err ("이미지 업로드 실패")) }
    { callState := some s1
      state := { s2 with loading := false, uploadingFileName := none }
      result := .error err }

/-- `uploadImagesBatch(office, imageTypes, files)`: on success stores the
url of every result whose `success` flag is set. -/
def uploadImagesBatch (_office : String) (s : ImageState)
    (call : Except JsError (List BatchUploadResult)) :
    StoreOpResult ImageState (List BatchUploadResult) :=
  let s1 : ImageState := { s with loading := true, error := none }
  match call with
  | .ok results =>
    let images := results.foldl
      (fun m r => if r.success then recordSet m r.imageType r.imageUrl else m)
      s1.uploadedImages
    { callState := some s1
      state := { s1 with uploadedImages := images, loading := false }
      result := .ok results }
  | .error err =>
    let s2 := { s1 with error := some (errMsg err ("배치 이미지 업로드 실패")) }
    { callState := some s1, state := { s2 with loading := false }, result := .error err }

/-- `deleteImage(office, imageType)`: on success deletes the image type's
entry from the record. -/
def deleteImage (_office : String) (imageType : String) (s : ImageState)
    (call : Except JsError Unit) : StoreOpResult ImageState Unit :=
  let s1 : ImageState := { s with loading := true, error := none }
  match call with
  | .ok _ =>
    let s2 := { s1 with uploadedImages := recordDelete s1.uploadedImages imageType }
    { callState := some s1
      state := { s2 with loading := false }
      result := .ok () }
  | .error err =>
    let s2 := { s1 with error := some (errMsg err ("이미지 삭제 실패")) }
    { callState := some s1, state := { s2 with loading := false }, result := .error err }

/-! ## Color palette store — `src/stores/colorStore.ts` (and
`isValidHexColor` from the color service) -/

/-- Interface `ColorPalette`. -/
structure ColorPalette where
  mainColorHexCode : String
  mainHoverColorHexCode : String
  subColorHexCode : String
  subHoverColorHexCode : String
  startGradientColor : String
  endGradientColor : String
deriving DecidableEq

/-- A hexadecimal digit of the regex class `[A-Fa-f0-9]`. -/
def isHexDigit (c : Char) : Bool :=
  (('A' ≤ c) && (c ≤ 'F')) || (('a' ≤ c) && (c ≤ 'f')) || (('0' ≤ c) && (c ≤ '9'))

/-- `isValidHexColor(color)`: the regex `^#([A-Fa-f0-9]{6}|[A-Fa-f0-9]{3})$`. -/
def isValidHexColor (color : String) : Bool :=
  match color.toList with
  | '#' :: rest => ((rest.length == 6) || (rest.length == 3)) && rest.all isHexDigit
  | _ => false

/-- Getter `allColorsValid`: every one of the six palette fields passes
`isValidHexColor`. -/
def allColorsValid (p : ColorPalette) : Bool :=
  [p.mainColorHexCode, p.mainHoverColorHexCode, p.subColorHexCode,
    p.subHoverColorHexCode, p.startGradientColor, p.endGradientColor].all isValidHexColor

/-- The color fields of the server's app-config `data`, each possibly
absent. -/
structure PartialPalette where
  mainColorHexCode : Option String := none
  mainHoverColorHexCode : Option String := none
  subColorHexCode : Option String := none
  subHoverColorHexCode : Option String := none
  startGradientColor : Option String := none
  endGradientColor : Option String := none
deriving DecidableEq

/-- `if (data.field) target = data.field` — assign only a truthy (present,
non-empty) server value. -/
def fieldOr (newVal : Option String) (old : String) : String :=
  match newVal with
  | some v => if v = "" then old else v
  | none => old

/-- The color store's state refs. -/
structure ColorState where
  colorPalette : ColorPalette
  defaultPalette : ColorPalette
  loading : Bool
  error : Option String
  isDeploying : Bool
  deployError : Option String
  isEditing : Bool
  previousPalette : Option ColorPalette
deriving DecidableEq

/-- `fetchColorPalette(office)`: on success overlays each truthy color of
`config.data` (when `config && config.data`) onto the palette, then copies
the palette into `defaultPalette`; the call outcome carries
`some data` when `config && config.data` is truthy and `none` otherwise. -/
def fetchColorPalette (_office : String) (s : ColorState)
    (call : Except JsError (Option PartialPalette)) : StoreOpResult ColorState Unit :=
  let s1 : ColorState := { s with loading := true, error := none }
  match call with
  | .ok config =>
    let pal :=
      match config with
      | some data =>
        { mainColorHexCode := fieldOr data.mainColorHexCode s1.colorPalette.mainColorHexCode
          mainHoverColorHexCode :=
            fieldOr data.mainHoverColorHexCode s1.colorPalette.mainHoverColorHexCode
          subColorHexCode := fieldOr data.subColorHexCode s1.colorPalette.subColorHexCode
          subHoverColorHexCode :=
            fieldOr data.subHoverColorHexCode s1.colorPalette.subHoverColorHexCode
          startGradientColor :=
            fieldOr data.startGradientColor s1.colorPalette.startGradientColor
          endGradientColor :=
            fieldOr data.endGradientColor s1.colorPalette.endGradientColor : ColorPalette }
      | none => s1.colorPalette
    { callState := some s1
      state := { s1 with colorPalette := pal, defaultPalette := pal, loading := false }
      result := .ok () }
  | .error err =>
    let s2 := { s1 with error := some (errMsg err ("색상 팔레트 조회 실패")) }
    { callState := some s1, state := { s2 with loading := false }, result := .error err }

/-- `fetchDefaultPalette()`: on success overlays each truthy color of
`config.data` onto `defaultPalette` (with the palette's own values as
fallbacks). -/
def fetchDefaultPalette (s : ColorState)
    (call : Except JsError (Option PartialPalette)) : StoreOpResult ColorState Unit :=
  let s1 : ColorState := { s with loading := true, error := none }
  match call with
  | .ok config =>
    let pal :=
      match config with
      | some data =>
        { mainColorHexCode := fieldOr data.mainColorHexCode s1.defaultPalette.mainColorHexCode
          mainHoverColorHexCode :=
            fieldOr data.mainHoverColorHexCode s1.defaultPalette.mainHoverColorHexCode
          subColorHexCode := fieldOr data.subColorHexCode s1.defaultPalette.subColorHexCode
          subHoverColorHexCode :=
            fieldOr data.subHoverColorHexCode s1.defaultPalette.subHoverColorHexCode
          startGradientColor :=
            fieldOr data.startGradientColor s1.defaultPalette.startGradientColor
          endGradientColor :=
            fieldOr data.endGradientColor s1.defaultPalette.endGradientColor : ColorPalette }
      | none => s1.defaultPalette
    { callState := some s1
      state := { s1 with defaultPalette := pal, loading := false }
      result := .ok () }
  | .error err =>
    let s2 := { s1 with error := some (errMsg err ("기본 팔레트 조회 실패")) }
    { callState := some s1, state := { s2 with loading := false }, result := .error err }

/-- `saveColorPalette(office)`: when a palette color fails validation the
action sets `error` and returns without issuing the server call (and
without throwing); otherwise it sets `isDeploying=true`, `deployError=null`,
on success copies the palette into `defaultPalette` and ends editing, on
failure records the message in `deployError` and re-throws, and `finally`
clears `isDeploying`.  Note: this action never touches `loading` and resets
`deployError`/`isDeploying`, not `error`/`loading`. -/
def saveColorPalette (_office : String) (s : ColorState)
    (call : Except JsError Unit) : StoreOpResult ColorState Unit :=
  if !(allColorsValid s.colorPalette) then
    { callState := none
      state := { s with error := some ("유효하지 않은 색상이 있습니다") }
      result := .ok () }
  else
    let s1 : ColorState := { s with isDeploying := true, deployError := none }
    match call with
    | .ok _ =>
      let s2 := { s1 with defaultPalette := s1.colorPalette, isEditing := false }
      { callState := some s1
        state := { s2 with isDeploying := false }
        result := .ok () }
    | .error err =>
      let s2 := { s1 with deployError := some (errMsg err ("색상 팔레트 저장 실패")) }
      { callState := some s1, state := { s2 with isDeploying := false }, result := .error err }

/-! ## Concrete sample values used by witnesses and counterexamples -/

/-- The transport-failure message `request` computes:
`(err instanceof Error ? err.message : "Unknown error") || "Network error"`. -/
def requestFailMsg (err : JsError) : String :=
  match err with
  | .errorObj m => if m = "" then ("Network error") else m
  | .nonError => ("Unknown error")

/-- A logged-in session with a remembered login email. -/
def loggedInState : AuthState :=
  { accessToken := some ("token-abc")
    refreshToken := some ("refresh-abc")
    email := some ("admin@example.com")
    isInitialPassword := false
    savedEmail := some ("admin@example.com") }

/-- A 401 response with an empty JSON object body. -/
def resp401 : Response :=
  { status := 401, jsonBody := some (.objV []) }

/-- A 2xx envelope whose nested `data` field is the (falsy) number 0. -/
def payloadDataZero : JsValue :=
  .objV [(("data"), .numV 0), (("message"), .strV ("ok"))]

/-- A 200 response carrying `payloadDataZero`. -/
def respDataZero : Response :=
  { status := 200, jsonBody := some payloadDataZero }

/-- A decoder (in place of `JSON.parse ∘ atob`) yielding a payload whose
`exp` field is the falsy number 0. -/
def parseExpZero : String → Option JsValue :=
  fun _ => some (.objV [(("exp"), .numV 0)])

/-- A decoder yielding a payload whose `exp` field is 299 seconds. -/
def parseExp299 : String → Option JsValue :=
  fun _ => some (.objV [(("exp"), .numV 299)])

/-- A decoder yielding a payload with no `exp` field. -/
def parseEmptyObj : String → Option JsValue :=
  fun _ => some (.objV [])

/-- A network oracle that rejects every call at the transport level. -/
def refusedFetch : String → InterceptorRequestConfig → Except JsError Response :=
  fun _ _ => .error (.errorObj ("connect ECONNREFUSED"))

/-- A Token Store action sequence installing an empty-string access token. -/
def emptyTokenOps : List AuthOp :=
  [AuthOp.setAuthData { accessToken := some (some ("")) }]

/-- A Token Store action sequence of an ordinary login. -/
def goodAuthOps : List AuthOp :=
  [AuthOp.setAuthData
    { accessToken := some (some ("token-abc"))
      refreshToken := some (some ("refresh-abc"))
      email := some (some ("admin@example.com")) }]

/-- A sample logo with the given id and selection flag. -/
def sampleLogo (id : String) (sel : Bool) : Logo :=
  { id := id
    officeCode := ("ktds")
    logoUrl := ("https://cdn.example.com/") ++ id
    logoName := id
    order := 0
    isSelected := sel
    uploadedAt := ("2025-01-01")
    uploadedBy := ("admin")
    createdAt := ("2025-01-01")
    updatedAt := ("2025-01-01") }

/-- A logo cache whose only logo does not carry the id that will be
selected. -/
def logoCexState : LogoState :=
  { logos := [sampleLogo ("logo-a") true]
    selectedLogoId := some ("logo-a")
    loading := false
    error := none
    isDeploying := false
    deployError := none }

/-- A logo cache containing exactly one logo with id `logo-a`. -/
def logoWitnessState : LogoState :=
  { logos := [sampleLogo ("logo-a") false, sampleLogo ("logo-b") true]
    selectedLogoId := some ("logo-b")
    loading := false
    error := none
    isDeploying := false
    deployError := none }

/-- A sample card with the given id and display order. -/
def sampleCard (id : String) (ord : Option Int) : Card :=
  { id := id
    cardType := .chatCard
    name := id
    displayOrder := ord }

/-- A card cache with two cards sharing the id `dup`. -/
def contentCexState : ContentState :=
  { cards := [sampleCard ("dup") (some 5), sampleCard ("dup") (some 7)]
    agents := []
    currentEditingCard := none
    loading := false
    error := none
    isDeploying := false
    deployError := none }

/-- A card cache with three distinct cards `id1`, `id2`, `id3`. -/
def contentWitnessState : ContentState :=
  { cards := [sampleCard ("id1") (some 5), sampleCard ("id2") (some 9), sampleCard ("id3") (some 1)]
    agents := []
    currentEditingCard := none
    loading := false
    error := none
    isDeploying := false
    deployError := none }

/-- An empty card cache. -/
def emptyContentState : ContentState :=
  { cards := []
    agents := []
    currentEditingCard := none
    loading := false
    error := none
    isDeploying := false
    deployError := none }

/-- The store's initial (valid) color palette. -/
def validPalette : ColorPalette :=
  { mainColorHexCode := ("#2563EB")
    mainHoverColorHexCode := ("#1E40AF")
    subColorHexCode := ("#10B981")
    subHoverColorHexCode := ("#059669")
    startGradientColor := ("#2563EB")
    endGradientColor := ("#10B981") }

/-- A palette failing hex validation. -/
def invalidPalette : ColorPalette :=
  { validPalette with mainColorHexCode := ("not-a-color") }

/-- A color-store state with a valid palette and a stale error message. -/
def colorCexState : ColorState :=
  { colorPalette := validPalette
    defaultPalette := validPalette
    loading := false
    error := some ("previous error")
    isDeploying := false
    deployError := none
    isEditing := true
    previousPalette := none }

/-- A color-store state whose palette fails validation. -/
def colorInvalidState : ColorState :=
  { colorCexState with colorPalette := invalidPalette, error := none }

/-! ## Theorems -/

/-- Claim C9: `logout()` sets accessToken, refreshToken and email to null and
isInitialPassword to false while leaving the remembered `savedEmail`
unchanged, and `forceLogout()` performs the same clears and additionally
sets `savedEmail` to null. -/
theorem claim_C9_theorem (s : AuthState) :
    (logout s).accessToken = none ∧ (logout s).refreshToken = none ∧
    (logout s).email = none ∧ (logout s).isInitialPassword = false ∧
    (logout s).savedEmail = s.savedEmail ∧
    (forceLogout s).accessToken = none ∧ (forceLogout s).refreshToken = none ∧
    (forceLogout s).email = none ∧ (forceLogout s).isInitialPassword = false ∧
    (forceLogout s).savedEmail = none :=
  ⟨rfl, rfl, rfl, rfl, rfl, rfl, rfl, rfl, rfl, rfl⟩

/-- Claim C1 (amended): on a 401 response the response interceptor triggers
`logout()` on the Token Store (clearing accessToken, refreshToken, email and
isInitialPassword but preserving the remembered `savedEmail`), triggers a
client-side redirect to the root route, and returns
`Failure{status:401, message}` to the caller rather than throwing or
hanging; afterwards `isLoggedIn` is false. -/
theorem claim_C1_theorem (s : AuthState) (r : Response) (h : r.status = 401) :
    (responseInterceptor s r).fst = logout s ∧
    (responseInterceptor s r).fst.savedEmail = s.savedEmail ∧
    isLoggedIn (responseInterceptor s r).fst = false ∧
    (responseInterceptor s r).snd.fst = some ("/") ∧
    ∃ m, (responseInterceptor s r).snd.snd =
      .failure { status := 401, message := m } := by
  have hok : respOk r = false := by simp [respOk, h]
  have hres : responseInterceptor s r =
      (logout s, some ("/"),
        .failure (handleError (r.jsonBody.getD (.objV [])) r.status)) := by
    simp [responseInterceptor, hok, h]
  refine ⟨by rw [hres], by rw [hres]; rfl, ?_, by rw [hres], ?_⟩
  · rw [hres]; rfl
  · exact ⟨(handleError (r.jsonBody.getD (.objV [])) r.status).message, by rw [hres, h]; rfl⟩

/-- Claim C1 counterexample: after the interceptor handles a 401 from a
logged-in session with a remembered email, `savedEmail` is still set — the
interceptor calls `logout()`, not `forceLogout()`, so the claim's
"clearing … the remembered email savedEmail" is false. -/
theorem claim_C1_counterexample :
    isLoggedIn loggedInState = true ∧ resp401.status = 401 ∧
    (responseInterceptor loggedInState resp401).fst.savedEmail = some ("admin@example.com") ∧
    (responseInterceptor loggedInState resp401).fst.savedEmail ≠ none := by
  refine ⟨by decide, by decide, by decide, by decide⟩

/-- Claim C1 witness: the amended theorem applied to a concrete logged-in
session and a concrete 401 response. -/
theorem claim_C1_witness :
    resp401.status = 401 ∧
    ((responseInterceptor loggedInState resp401).fst = logout loggedInState ∧
    (responseInterceptor loggedInState resp401).fst.savedEmail = loggedInState.savedEmail ∧
    isLoggedIn (responseInterceptor loggedInState resp401).fst = false ∧
    (responseInterceptor loggedInState resp401).snd.fst = some ("/") ∧
    ∃ m, (responseInterceptor loggedInState resp401).snd.snd =
      .failure { status := 401, message := m }) :=
  ⟨rfl, claim_C1_theorem loggedInState resp401 rfl⟩

lemma applyAuthOp_token_ne_empty {s : AuthState} {op : AuthOp}
    (hs : s.accessToken ≠ some ("")) (hop : op.avoidsEmptyToken) :
    (applyAuthOp s op).accessToken ≠ some ("") := by
  cases op with
  | setAuthData p =>
    simp only [AuthOp.avoidsEmptyToken] at hop
    simp only [applyAuthOp, setAuthData]
    cases hp : p.accessToken with
    | none => simpa using hs
    | some v =>
      simp only [Option.getD_some]
      intro hv
      rw [hp, hv] at hop
      exact hop rfl
  | saveEmail e => simpa [applyAuthOp, saveEmail] using hs
  | clearSavedEmail => simpa [applyAuthOp, clearSavedEmail] using hs
  | updateAccessToken t =>
    simp only [AuthOp.avoidsEmptyToken] at hop
    simp only [applyAuthOp, updateAccessToken]
    intro hv
    exact hop (by injection hv)
  | logout => simp [applyAuthOp, logout]
  | forceLogout => simp [applyAuthOp, forceLogout]

lemma runAuthOps_token_ne_empty :
    ∀ (ops : List AuthOp) (s : AuthState), s.accessToken ≠ some ("") →
    (∀ op ∈ ops, op.avoidsEmptyToken) → (runAuthOps s ops).accessToken ≠ some ("") := by
  intro ops
  induction ops with
  | nil => intro s hs _; exact hs
  | cons op rest ih =>
    intro s hs hops
    have h1 := applyAuthOp_token_ne_empty hs (hops op (List.mem_cons_self op rest))
    have h2 : ∀ o ∈ rest, o.avoidsEmptyToken := fun o ho => hops o (List.mem_cons_of_mem op ho)
    simpa [runAuthOps, List.foldl_cons] using ih (applyAuthOp s op) h1 h2

lemma isLoggedIn_iff_ne_none {s : AuthState} (hs : s.accessToken ≠ some ("")) :
    (isLoggedIn s = true ↔ s.accessToken ≠ none) := by
  cases h : s.accessToken with
  | none => simp [isLoggedIn, strTruthy, h]
  | some t =>
    have ht : t ≠ "" := by intro h2; rw [h, h2] at hs; exact hs rfl
    simp [isLoggedIn, strTruthy, h, ht]

/-- Claim C4 (amended): in every session state reachable from the initial
state by Token Store operations none of which installs an empty-string
access token, `isLoggedIn` is true iff `accessToken != null`.  (Because
`isLoggedIn` is JS truthiness `!!accessToken`, an empty-string token — which
`setAuthData`/`updateAccessToken` accept unvalidated — breaks the
equivalence.) -/
theorem claim_C4_theorem (ops : List AuthOp) (hops : ∀ op ∈ ops, op.avoidsEmptyToken) :
    (isLoggedIn (runAuthOps initialAuthState ops) = true ↔
      (runAuthOps initialAuthState ops).accessToken ≠ none) :=
  isLoggedIn_iff_ne_none
    (runAuthOps_token_ne_empty ops initialAuthState (by simp [initialAuthState]) hops)

/-- Claim C4 counterexample: `setAuthData({accessToken: ""})` reaches a state
with `accessToken != null` but `isLoggedIn` false, refuting the claimed
equivalence over all operation sequences. -/
theorem claim_C4_counterexample :
    (runAuthOps initialAuthState emptyTokenOps).accessToken ≠ none ∧
    isLoggedIn (runAuthOps initialAuthState emptyTokenOps) = false := by
  refine ⟨by decide, by decide⟩

/-- Claim C4 witness: the amended theorem applied to a concrete login
sequence. -/
theorem claim_C4_witness :
    (∀ op ∈ goodAuthOps, op.avoidsEmptyToken) ∧
    (isLoggedIn (runAuthOps initialAuthState goodAuthOps) = true ↔
      (runAuthOps initialAuthState goodAuthOps).accessToken ≠ none) :=
  ⟨by decide, claim_C4_theorem goodAuthOps (by decide)⟩

lemma ne_empty_of_splitOnDot_three {t h1 p1 s1 : String}
    (h : splitOnDot t = [h1, p1, s1]) : t ≠ ("") := by
  intro ht
  subst ht
  have e : splitOnDot ("") = [("")] := rfl
  rw [e] at h
  simp at h

lemma isTokenValid_eq_of_parts {parse : String → Option JsValue} {now : Int}
    {t h1 p1 s1 : String} {payload : JsValue}
    (hsplit : splitOnDot t = [h1, p1, s1]) (hparse : parse p1 = some payload) :
    isTokenValid parse now (some t) =
      (match payload.getProp ("exp") with
       | some expVal =>
         if expVal.truthy then
           match expVal with
           | .numV exp => if now + 5 * 60 * 1000 > exp * 1000 then false else true
           | _ => true
         else true
       | none => true) := by
  have ht : t ≠ ("") := ne_empty_of_splitOnDot_three hsplit
  simp only [isTokenValid, if_neg ht, hsplit, hparse]

lemma isTokenValid_of_not_three {parse : String → Option JsValue} {now : Int}
    {t : String} (hlen : (splitOnDot t).length ≠ 3) :
    isTokenValid parse now (some t) = false := by
  by_cases ht : t = ("")
  · simp [isTokenValid, ht]
  · rcases hs : splitOnDot t with _ | ⟨a, _ | ⟨b, _ | ⟨c, _ | ⟨d, l⟩⟩⟩⟩
    · simp only [isTokenValid, if_neg ht, hs]
    · simp only [isTokenValid, if_neg ht, hs]
    · simp only [isTokenValid, if_neg ht, hs]
    · exact absurd (by rw [hs]; rfl) hlen
    · simp only [isTokenValid, if_neg ht, hs]

/-- Claim C2 (amended): `isTokenValid` returns false for a null or empty
token, false when the token does not split into exactly three dot-separated
parts, and false when decoding/parsing the middle part fails; it returns
true when the decoded payload has no `exp` field **or a falsy one (`exp: 0`
is treated like a missing expiry)**; and for a nonzero numeric `exp` it
returns false exactly when `now + 5 minutes (300000 ms)` exceeds
`exp * 1000`, so (for the non-negative clocks of `Date.now()`) a token
expiring exactly 5 minutes 1 second from now is valid and one expiring
exactly 4 minutes 59 seconds from now is not. -/
theorem claim_C2_theorem (parse : String → Option JsValue) (now : Int) :
    (isTokenValid parse now none = false)
    ∧ (isTokenValid parse now (some ("")) = false)
    ∧ (∀ t, (splitOnDot t).length ≠ 3 → isTokenValid parse now (some t) = false)
    ∧ (∀ t h1 p1 s1, splitOnDot t = [h1, p1, s1] → parse p1 = none →
        isTokenValid parse now (some t) = false)
    ∧ (∀ t h1 p1 s1 payload, splitOnDot t = [h1, p1, s1] → parse p1 = some payload →
        payload.getProp ("exp") = none → isTokenValid parse now (some t) = true)
    ∧ (∀ t h1 p1 s1 payload, splitOnDot t = [h1, p1, s1] → parse p1 = some payload →
        payload.getProp ("exp") = some (.numV 0) → isTokenValid parse now (some t) = true)
    ∧ (∀ t h1 p1 s1 payload e, splitOnDot t = [h1, p1, s1] → parse p1 = some payload →
        payload.getProp ("exp") = some (.numV e) → e ≠ 0 →
        (isTokenValid parse now (some t) = false ↔ now + 5 * 60 * 1000 > e * 1000))
    ∧ (∀ t h1 p1 s1 payload e, splitOnDot t = [h1, p1, s1] → parse p1 = some payload →
        payload.getProp ("exp") = some (.numV e) → 0 ≤ now → e * 1000 = now + 301000 →
        isTokenValid parse now (some t) = true)
    ∧ (∀ t h1 p1 s1 payload e, splitOnDot t = [h1, p1, s1] → parse p1 = some payload →
        payload.getProp ("exp") = some (.numV e) → 0 ≤ now → e * 1000 = now + 299000 →
        isTokenValid parse now (some t) = false) := by
  refine ⟨rfl, rfl, ?_, ?_, ?_, ?_, ?_, ?_, ?_⟩
  · intro t hlen
    exact isTokenValid_of_not_three hlen
  · intro t h1 p1 s1 hsplit hparse
    have ht : t ≠ ("") := ne_empty_of_splitOnDot_three hsplit
    simp only [isTokenValid, if_neg ht, hsplit, hparse]
  · intro t h1 p1 s1 payload hsplit hparse hexp
    rw [isTokenValid_eq_of_parts hsplit hparse, hexp]
  · intro t h1 p1 s1 payload hsplit hparse hexp
    rw [isTokenValid_eq_of_parts hsplit hparse, hexp]
    simp [JsValue.truthy]
  · intro t h1 p1 s1 payload e hsplit hparse hexp he
    rw [isTokenValid_eq_of_parts hsplit hparse, hexp]
    by_cases hc : now + 5 * 60 * 1000 > e * 1000
    · simp [JsValue.truthy, he, hc]
    · simp [JsValue.truthy, he, hc]
  · intro t h1 p1 s1 payload e hsplit hparse hexp hnow hbound
    have he : e ≠ 0 := by
      intro h0
      rw [h0] at hbound
      omega
    rw [isTokenValid_eq_of_parts hsplit hparse, hexp]
    simp [JsValue.truthy, he]
    omega
  · intro t h1 p1 s1 payload e hsplit hparse hexp hnow hbound
    have he : e ≠ 0 := by
      intro h0
      rw [h0] at hbound
      omega
    rw [isTokenValid_eq_of_parts hsplit hparse, hexp]
    simp [JsValue.truthy, he]
    omega

/-- Claim C2 counterexample: a token whose decoded payload has `exp: 0` —
the expiry is present and `now + 5 minutes` exceeds `exp * 1000 = 0`, so the
claim demands false, yet the code's truthiness test `if (payload.exp)` skips
the comparison and returns true. -/
theorem claim_C2_counterexample :
    parseExpZero ("payload") = some (.objV [(("exp"), .numV 0)]) ∧
    JsValue.getProp (.objV [(("exp"), .numV 0)]) ("exp") = some (.numV 0) ∧
    ((0 : Int) + 5 * 60 * 1000 > 0 * 1000) ∧
    isTokenValid parseExpZero 0 (some ("header.payload.sig")) = true := by
  refine ⟨rfl, rfl, by decide, by decide⟩

/-- Claim C2 witness: the amended theorem's 4-minutes-59-seconds boundary
clause applied to a concrete token whose payload has `exp = 299` at
`now = 0`. -/
theorem claim_C2_witness :
    splitOnDot ("h.p.s") = [("h"), ("p"), ("s")] ∧
    parseExp299 ("p") = some (.objV [(("exp"), .numV 299)]) ∧
    ((299 : Int) * 1000 = 0 + 299000) ∧
    isTokenValid parseExp299 0 (some ("h.p.s")) = false := by
  refine ⟨by decide, rfl, by decide, ?_⟩
  exact (claim_C2_theorem parseExp299 0).2.2.2.2.2.2.2.2 ("h.p.s") ("h") ("p") ("s")
    (.objV [(("exp"), .numV 299)]) 299 (by decide) rfl rfl (by decide) (by decide)

/-- Claim C10: any token `isTokenValid` accepts is also decodable —
`isTokenValid(t) = true` implies `decodeToken(t)` returns a non-null
payload. -/
theorem claim_C10_theorem (parse : String → Option JsValue) (now : Int)
    (token : Option String) (h : isTokenValid parse now token = true) :
    decodeToken parse token ≠ none := by
  cases token with
  | none => simp [isTokenValid] at h
  | some t =>
    by_cases ht : t = ("")
    · rw [ht] at h
      simp [isTokenValid] at h
    · rcases hs : splitOnDot t with _ | ⟨a, _ | ⟨b, _ | ⟨c, _ | ⟨d, l⟩⟩⟩⟩
      · simp only [isTokenValid, if_neg ht, hs] at h
        exact absurd h (by simp)
      · simp only [isTokenValid, if_neg ht, hs] at h
        exact absurd h (by simp)
      · simp only [isTokenValid, if_neg ht, hs] at h
        exact absurd h (by simp)
      · simp only [decodeToken, if_neg ht, hs]
        cases hp : parse b with
        | none =>
          simp only [isTokenValid, if_neg ht, hs, hp] at h
          exact absurd h (by simp)
        | some payload => simp
      · simp only [isTokenValid, if_neg ht, hs] at h
        exact absurd h (by simp)

/-- Claim C10 witness: the theorem applied to a concrete token whose payload
decodes to an object without an expiry. -/
theorem claim_C10_witness :
    isTokenValid parseEmptyObj 0 (some ("x.y.z")) = true ∧
    decodeToken parseEmptyObj (some ("x.y.z")) ≠ none :=
  ⟨by decide, claim_C10_theorem parseEmptyObj 0 (some ("x.y.z")) (by decide)⟩

lemma responseInterceptor_ok {s : AuthState} {r : Response} {p : JsValue}
    (hok : respOk r = true) (hbody : r.jsonBody = some p) :
    responseInterceptor s r = (s, none, .success (handleSuccess p r.status)) := by
  simp [responseInterceptor, hok, hbody]

/-- Claim C3 (amended): for a 2xx response with JSON payload `p`, the
interceptor returns Success whose status is the response status, whose data
is `p.data` when that field is present **and truthy** and otherwise the
whole payload (`data.data || data` — JS `||`, not `??`), and whose message
is `p.message` when present **and truthy** and otherwise `"Success"`; the
auth state is untouched and no redirect occurs. -/
theorem claim_C3_theorem (s : AuthState) (r : Response) (p : JsValue)
    (hok : respOk r = true) (hbody : r.jsonBody = some p) :
    ∃ sr, (responseInterceptor s r).snd.snd = .success sr
      ∧ (responseInterceptor s r).fst = s
      ∧ (responseInterceptor s r).snd.fst = none
      ∧ sr.status = r.status
      ∧ (∀ d, p.getProp ("data") = some d → d.truthy = true → sr.data = d)
      ∧ (∀ d, p.getProp ("data") = some d → d.truthy = false → sr.data = p)
      ∧ (p.getProp ("data") = none → sr.data = p)
      ∧ (∀ m, p.getProp ("message") = some m → m.truthy = true → sr.message = m)
      ∧ (∀ m, p.getProp ("message") = some m → m.truthy = false →
          sr.message = .strV ("Success"))
      ∧ (p.getProp ("message") = none → sr.message = .strV ("Success")) := by
  refine ⟨handleSuccess p r.status, ?_, ?_, ?_, rfl, ?_, ?_, ?_, ?_, ?_, ?_⟩
  · rw [responseInterceptor_ok hok hbody]
  · rw [responseInterceptor_ok hok hbody]
  · rw [responseInterceptor_ok hok hbody]
  · intro d hd htr
    simp [handleSuccess, hd, htr]
  · intro d hd htr
    simp [handleSuccess, hd, htr]
  · intro hd
    simp [handleSuccess, hd]
  · intro m hm htr
    simp [handleSuccess, hm, htr]
  · intro m hm htr
    simp [handleSuccess, hm, htr]
  · intro hm
    simp [handleSuccess, hm]

/-- Claim C3 counterexample: a 200 envelope `{data: 0, message: "ok"}` has a
nested `data` field, so the claim demands `Success.data = 0`; the code's
`data.data || data` sees the falsy 0 and returns the whole payload
instead. -/
theorem claim_C3_counterexample :
    respOk respDataZero = true ∧
    payloadDataZero.getProp ("data") = some (.numV 0) ∧
    (responseInterceptor initialAuthState respDataZero).snd.snd =
      .success { status := 200, data := payloadDataZero, message := .strV ("ok") } ∧
    payloadDataZero ≠ .numV 0 := by
  refine ⟨by decide, rfl, rfl, ?_⟩
  intro hcontra
  simp only [payloadDataZero] at hcontra
  injection hcontra

/-- Claim C3 witness: the amended theorem applied to a concrete 200 response
whose envelope carries a truthy `data` array and message. -/
theorem claim_C3_witness :
    respOk { status := 200, jsonBody := some (.objV [(("data"), .arrV []), (("message"), .strV ("ok"))]) } = true ∧
    (∃ sr, (responseInterceptor initialAuthState
        { status := 200, jsonBody := some (.objV [(("data"), .arrV []), (("message"), .strV ("ok"))]) }).snd.snd = .success sr
      ∧ (responseInterceptor initialAuthState
          { status := 200, jsonBody := some (.objV [(("data"), .arrV []), (("message"), .strV ("ok"))]) }).fst = initialAuthState
      ∧ (responseInterceptor initialAuthState
          { status := 200, jsonBody := some (.objV [(("data"), .arrV []), (("message"), .strV ("ok"))]) }).snd.fst = none
      ∧ sr.status = ({ status := 200, jsonBody := some (.objV [(("data"), .arrV []), (("message"), .strV ("ok"))]) } : Response).status
      ∧ (∀ d, (JsValue.objV [(("data"), .arrV []), (("message"), .strV ("ok"))]).getProp ("data") = some d → d.truthy = true → sr.data = d)
      ∧ (∀ d, (JsValue.objV [(("data"), .arrV []), (("message"), .strV ("ok"))]).getProp ("data") = some d → d.truthy = false → sr.data = .objV [(("data"), .arrV []), (("message"), .strV ("ok"))])
      ∧ ((JsValue.objV [(("data"), .arrV []), (("message"), .strV ("ok"))]).getProp ("data") = none → sr.data = .objV [(("data"), .arrV []), (("message"), .strV ("ok"))])
      ∧ (∀ m, (JsValue.objV [(("data"), .arrV []), (("message"), .strV ("ok"))]).getProp ("message") = some m → m.truthy = true → sr.message = m)
      ∧ (∀ m, (JsValue.objV [(("data"), .arrV []), (("message"), .strV ("ok"))]).getProp ("message") = some m → m.truthy = false → sr.message = .strV ("Success"))
      ∧ ((JsValue.objV [(("data"), .arrV []), (("message"), .strV ("ok"))]).getProp ("message") = none → sr.message = .strV ("Success"))) :=
  ⟨rfl, claim_C3_theorem initialAuthState
    { status := 200, jsonBody := some (.objV [(("data"), .arrV []), (("message"), .strV ("ok"))]) }
    (.objV [(("data"), .arrV []), (("message"), .strV ("ok"))]) rfl rfl⟩

/-- Claim C8: when the network call rejects at the transport level (no HTTP
response), `request` resolves — without throwing — with a Failure whose
status is 0, whose code is `NETWORK_ERROR`, and whose message carries the
transport error text (with `"Network error"`/`"Unknown error"` fallbacks for
an empty message or a non-`Error` throw); the auth state is untouched and no
redirect occurs. -/
theorem claim_C8_theorem (apiBaseUrl : String) (authStore : AuthState) (url : String)
    (options : RequestOptions)
    (fetchFn : String → InterceptorRequestConfig → Except JsError Response) (e : JsError)
    (hfetch : fetchFn (resolveUrl apiBaseUrl url)
        (requestInterceptor authStore (buildConfig options)) = .error e) :
    request apiBaseUrl authStore url options fetchFn =
      (authStore, none,
        .networkError { status := 0, code := ("NETWORK_ERROR"), message := requestFailMsg e })
    ∧ (∀ m, e = .errorObj m → m ≠ ("") → requestFailMsg e = m) := by
  constructor
  · simp only [request, hfetch]
    cases e with
    | errorObj m => rfl
    | nonError => rfl
  · intro m hm hne
    subst hm
    simp [requestFailMsg, hne]

/-- Claim C8 witness: the theorem applied to a connection-refused oracle on
a concrete relative URL with default options. -/
theorem claim_C8_witness :
    refusedFetch (resolveUrl ("") ("/api/app/info"))
        (requestInterceptor initialAuthState (buildConfig {})) =
      .error (.errorObj ("connect ECONNREFUSED")) ∧
    (request ("") initialAuthState ("/api/app/info") {} refusedFetch =
      (initialAuthState, none,
        .networkError { status := 0, code := ("NETWORK_ERROR")
                        message := requestFailMsg (.errorObj ("connect ECONNREFUSED")) })
      ∧ requestFailMsg (.errorObj ("connect ECONNREFUSED")) = ("connect ECONNREFUSED")) :=
  ⟨rfl,
    (claim_C8_theorem ("") initialAuthState ("/api/app/info") {} refusedFetch
      (.errorObj ("connect ECONNREFUSED")) rfl).1,
    (claim_C8_theorem ("") initialAuthState ("/api/app/info") {} refusedFetch
      (.errorObj ("connect ECONNREFUSED")) rfl).2 ("connect ECONNREFUSED") rfl (by decide)⟩

/-- Claim C5 (amended): on a successful `select(id)` every cached logo's
`isSelected` becomes `(its id == the argument)` and `selectedLogoId` is set;
hence any selected logo carries the argument id, and when the cache contains
exactly one logo with that id, exactly one logo ends up selected.  (When no
cached logo carries the id — possible since the id is an arbitrary argument
— zero logos are selected, refuting the unconditional "exactly one".) -/
theorem claim_C5_theorem (logoId office : String) (s : LogoState) :
    ((selectLogo logoId office s (.ok ())).state.logos
        = s.logos.map (fun (logo : Logo) => { logo with isSelected := logo.id == logoId }))
    ∧ ((selectLogo logoId office s (.ok ())).state.selectedLogoId = some logoId)
    ∧ (∀ l ∈ (selectLogo logoId office s (.ok ())).state.logos,
        l.isSelected = true → l.id = logoId)
    ∧ (s.logos.countP (fun l => l.id == logoId) = 1 →
        (selectLogo logoId office s (.ok ())).state.logos.countP
          (fun l => l.isSelected) = 1) := by
  refine ⟨rfl, rfl, ?_, ?_⟩
  · intro l hl hsel
    have hmem : l ∈ s.logos.map
        (fun (logo : Logo) => { logo with isSelected := logo.id == logoId }) := hl
    obtain ⟨x, _, rfl⟩ := List.mem_map.mp hmem
    exact eq_of_beq hsel
  · intro hcount
    show (s.logos.map
        (fun (logo : Logo) => { logo with isSelected := logo.id == logoId })).countP
      (fun l => l.isSelected) = 1
    rw [List.countP_map]
    exact hcount

/-- Claim C5 counterexample: selecting an id absent from the cache leaves
zero logos selected, not exactly one. -/
theorem claim_C5_counterexample :
    (selectLogo ("logo-b") ("ktds") logoCexState (.ok ())).result = .ok () ∧
    (selectLogo ("logo-b") ("ktds") logoCexState (.ok ())).state.logos.countP
      (fun l => l.isSelected) = 0 := by
  exact ⟨rfl, by decide⟩

/-- Claim C5 witness: the amended theorem applied to a cache holding exactly
one logo with the selected id. -/
theorem claim_C5_witness :
    (logoWitnessState.logos.countP (fun l => l.id == ("logo-a")) = 1) ∧
    ((selectLogo ("logo-a") ("ktds") logoWitnessState (.ok ())).state.logos.countP
      (fun l => l.isSelected) = 1) :=
  ⟨by decide, (claim_C5_theorem ("logo-a") ("ktds") logoWitnessState).2.2.2 (by decide)⟩

lemma setOrderFirst_of_nodup (cards : List Card) (cardId : String) (idx : Int)
    (hnd : (cards.map (fun c => c.id)).Nodup) :
    setOrderFirst cards cardId idx =
      cards.map (fun c => if c.id == cardId then { c with displayOrder := some idx } else c) := by
  induction cards with
  | nil => rfl
  | cons c rest ih =>
    rw [List.map_cons, List.nodup_cons] at hnd
    by_cases h : c.id == cardId
    · have hid : c.id = cardId := eq_of_beq h
      have hall : ∀ x ∈ rest,
          (if x.id == cardId then { x with displayOrder := some idx } else x) = x := by
        intro x hx
        have hxne : x.id ≠ cardId := by
          intro hxe
          exact hnd.1 (by
            rw [hid, ← hxe]
            exact List.mem_map_of_mem (fun c => c.id) hx)
        simp [hxne]
      have hrest : rest.map
          (fun x => if x.id == cardId then { x with displayOrder := some idx } else x)
            = rest := by
        rw [List.map_congr_left hall]
        exact List.map_id rest
      simp only [setOrderFirst, List.map_cons, if_pos h]
      rw [hrest]
    · have htail := ih hnd.2
      have hnp : ¬((c.id == cardId) = true) := by simp [h]
      simp only [setOrderFirst, List.map_cons, if_neg hnp]
      rw [htail]

lemma findIdx?_none_of_forall {α : Type} {p : α → Bool} :
    ∀ (l : List α) (i : Nat), (∀ x ∈ l, p x = false) → List.findIdx? p l i = none := by
  intro l
  induction l with
  | nil => intro i _; rfl
  | cons a rest ih =>
    intro i hall
    rw [List.findIdx?_cons, hall a (List.mem_cons_self a rest)]
    simp only [Bool.false_eq_true, if_false]
    exact ih (i + 1) (fun x hx => hall x (List.mem_cons_of_mem a hx))

lemma applyOrderAux_spec :
    ∀ (ids : List String) (cards : List Card) (base : Nat), ids.Nodup →
    (cards.map (fun c => c.id)).Nodup →
    applyOrderAux cards ids base =
      cards.map (fun c =>
        match List.findIdx? (fun x => x == c.id) ids base with
        | some i => { c with displayOrder := some (Int.ofNat i) }
        | none => c) := by
  intro ids
  induction ids with
  | nil =>
    intro cards base _ _
    have hfun : ∀ (c : Card), c ∈ cards →
        (match List.findIdx? (fun x => x == c.id) ([] : List String) base with
         | some i => { c with displayOrder := some (Int.ofNat i) }
         | none => c) = (fun (c : Card) => c) c := fun c _ => rfl
    rw [applyOrderAux]
    exact ((List.map_congr_left hfun).trans (List.map_id cards)).symm
  | cons id rest ih =>
    intro cards base hnd hcards
    obtain ⟨hmem, hrest⟩ := List.nodup_cons.mp hnd
    rw [applyOrderAux, setOrderFirst_of_nodup cards id (Int.ofNat base) hcards]
    have hids : ((cards.map (fun c =>
        if c.id == id then { c with displayOrder := some (Int.ofNat base) } else c)).map
          (fun c => c.id)) = cards.map (fun c => c.id) := by
      rw [List.map_map]
      apply List.map_congr_left
      intro c _
      by_cases h : c.id == id
      · simp [Function.comp, h]
      · simp [Function.comp, h]
    rw [ih _ (base + 1) hrest (by rw [hids]; exact hcards)]
    rw [List.map_map]
    apply List.map_congr_left
    intro c _
    by_cases h : c.id == id
    · have hid : c.id = id := eq_of_beq h
      have hnone : List.findIdx? (fun x => x == c.id) rest (base + 1) = none := by
        apply findIdx?_none_of_forall
        intro x hx
        have : x ≠ c.id := by
          intro he
          exact hmem (by rw [← hid, ← he]; exact hx)
        simp [this]
      have hcons : List.findIdx? (fun x => x == c.id) (id :: rest) base = some base := by
        rw [List.findIdx?_cons]
        have : (id == c.id) = true := by simp [hid]
        simp only [this, if_true]
      rw [hcons]
      simp only [Function.comp_apply, if_pos h]
      have hproj : ({ c with displayOrder := some (Int.ofNat base) } : Card).id = c.id := rfl
      rw [hproj, hnone]
    · have hne : (id == c.id) = false := by
        have : c.id ≠ id := by
          intro he
          rw [he] at h
          simp at h
        simp [Ne.symm this]
      have hcons : List.findIdx? (fun x => x == c.id) (id :: rest) base
          = List.findIdx? (fun x => x == c.id) rest (base + 1) := by
        rw [List.findIdx?_cons]
        simp only [hne, Bool.false_eq_true, if_false]
      rw [hcons]
      simp only [Function.comp_apply, if_neg h]

/-- Claim C6 (amended): when the order-update call succeeds and both the
given id list and the cached ids are duplicate-free, each cached card whose
id appears in the list gets that id's position index as `displayOrder` and
every other cached card is unchanged — in particular `reorder([id3,id1,id2])`
assigns 0,1,2 to the cards with ids id3,id1,id2.  (With duplicate cached
ids only the first matching card is updated, refuting the unrestricted
claim.) -/
theorem claim_C6_theorem (cardIds : List String) (office : String) (s : ContentState)
    (h1 : cardIds.Nodup) (h2 : (s.cards.map (fun c => c.id)).Nodup) :
    (updateCardOrder cardIds office s (.ok ())).state.cards =
      s.cards.map (fun c =>
        match List.findIdx? (fun x => x == c.id) cardIds with
        | some i => { c with displayOrder := some (Int.ofNat i) }
        | none => c) := by
  show applyOrder s.cards cardIds = _
  rw [applyOrder]
  exact applyOrderAux_spec cardIds s.cards 0 h1 h2

/-- Claim C6 counterexample: with two cached cards sharing the id `dup`,
`reorder(["dup"])` updates only the first — the second card's id appears in
the list yet its `displayOrder` stays 7 instead of becoming 0. -/
theorem claim_C6_counterexample :
    (("dup") ∈ [("dup")] : Prop) ∧
    (updateCardOrder [("dup")] ("ktds") contentCexState (.ok ())).state.cards.map
      (fun c => (c.id, c.displayOrder)) = [(("dup"), some 0), (("dup"), some 7)] := by
  exact ⟨by decide, by decide⟩

/-- Claim C6 witness: the amended theorem applied to the spec's
`reorder([id3, id1, id2])` scenario on three distinct cached cards. -/
theorem claim_C6_witness :
    ([("id3"), ("id1"), ("id2")] : List String).Nodup ∧
    (contentWitnessState.cards.map (fun c => c.id)).Nodup ∧
    (updateCardOrder [("id3"), ("id1"), ("id2")] ("ktds") contentWitnessState
        (.ok ())).state.cards.map (fun c => (c.id, c.displayOrder))
      = [(("id1"), some 1), (("id2"), some 2), (("id3"), some 0)] := by
  refine ⟨by decide, by decide, ?_⟩
  rw [claim_C6_theorem [("id3"), ("id1"), ("id2")] ("ktds") contentWitnessState
    (by decide) (by decide)]
  decide

/-- Claim C7 (amended): every operation of the card, logo and image stores,
and the color store's two fetch operations, sets `loading=true` and
`error=null` at entry (the state in which the service call is issued),
records a human-readable message in `error` and re-throws on failure, and
unconditionally resets `loading=false`; the color store's save operation
(`saveColorPalette`, the palette upsert) is the exception: it uses
`isDeploying`/`deployError` instead of `loading`/`error` for this pattern,
and when the palette fails client-side hex validation it records a message
in `error` and returns without a server call and without throwing. -/
theorem claim_C7_theorem :
    (∀ (office : String) (s : LogoState),
      (∀ call, ∃ cs, (fetchLogos office s call).callState = some cs
        ∧ cs.loading = true ∧ cs.error = none)
      ∧ (∀ call, (fetchLogos office s call).state.loading = false)
      ∧ (∀ e, (fetchLogos office s (.error e)).state.error = some (errMsg e ("로고 목록 조회 실패"))
          ∧ (fetchLogos office s (.error e)).result = .error e))
    ∧ (∀ (office : String) (s : LogoState),
      (∀ call, ∃ cs, (uploadLogo office s call).callState = some cs
        ∧ cs.loading = true ∧ cs.error = none)
      ∧ (∀ call, (uploadLogo office s call).state.loading = false)
      ∧ (∀ e, (uploadLogo office s (.error e)).state.error = some (errMsg e ("로고 업로드 실패"))
          ∧ (uploadLogo office s (.error e)).result = .error e))
    ∧ (∀ (logoId office : String) (s : LogoState),
      (∀ call, ∃ cs, (selectLogo logoId office s call).callState = some cs
        ∧ cs.loading = true ∧ cs.error = none)
      ∧ (∀ call, (selectLogo logoId office s call).state.loading = false)
      ∧ (∀ e, (selectLogo logoId office s (.error e)).state.error = some (errMsg e ("로고 선택 실패"))
          ∧ (selectLogo logoId office s (.error e)).result = .error e))
    ∧ (∀ (logoId office : String) (s : LogoState),
      (∀ call, ∃ cs, (deleteLogo logoId office s call).callState = some cs
        ∧ cs.loading = true ∧ cs.error = none)
      ∧ (∀ call, (deleteLogo logoId office s call).state.loading = false)
      ∧ (∀ e, (deleteLogo logoId office s (.error e)).state.error = some (errMsg e ("로고 삭제 실패"))
          ∧ (deleteLogo logoId office s (.error e)).result = .error e))
    ∧ (∀ (office : String) (s : ContentState),
      (∀ call, ∃ cs, (fetchCards office s call).callState = some cs
        ∧ cs.loading = true ∧ cs.error = none)
      ∧ (∀ call, (fetchCards office s call).state.loading = false)
      ∧ (∀ e, (fetchCards office s (.error e)).state.error = some (errMsg e ("카드 목록 조회 실패"))
          ∧ (fetchCards office s (.error e)).result = .error e))
    ∧ (∀ (s : ContentState),
      (∀ call, ∃ cs, (fetchAgents s call).callState = some cs
        ∧ cs.loading = true ∧ cs.error = none)
      ∧ (∀ call, (fetchAgents s call).state.loading = false)
      ∧ (∀ e, (fetchAgents s (.error e)).state.error = some (errMsg e ("에이전트 목록 조회 실패"))
          ∧ (fetchAgents s (.error e)).result = .error e))
    ∧ (∀ (s : ContentState),
      (∀ call, ∃ cs, (addCard s call).callState = some cs
        ∧ cs.loading = true ∧ cs.error = none)
      ∧ (∀ call, (addCard s call).state.loading = false)
      ∧ (∀ e, (addCard s (.error e)).state.error = some (errMsg e ("카드 추가 실패"))
          ∧ (addCard s (.error e)).result = .error e))
    ∧ (∀ (cardId office : String) (s : ContentState),
      (∀ call, ∃ cs, (updateCard cardId office s call).callState = some cs
        ∧ cs.loading = true ∧ cs.error = none)
      ∧ (∀ call, (updateCard cardId office s call).state.loading = false)
      ∧ (∀ e, (updateCard cardId office s (.error e)).state.error = some (errMsg e ("카드 수정 실패"))
          ∧ (updateCard cardId office s (.error e)).result = .error e))
    ∧ (∀ (cardId office : String) (s : ContentState),
      (∀ call, ∃ cs, (deleteCard cardId office s call).callState = some cs
        ∧ cs.loading = true ∧ cs.error = none)
      ∧ (∀ call, (deleteCard cardId office s call).state.loading = false)
      ∧ (∀ e, (deleteCard cardId office s (.error e)).state.error = some (errMsg e ("카드 삭제 실패"))
          ∧ (deleteCard cardId office s (.error e)).result = .error e))
    ∧ (∀ (cardIds : List String) (office : String) (s : ContentState),
      (∀ call, ∃ cs, (updateCardOrder cardIds office s call).callState = some cs
        ∧ cs.loading = true ∧ cs.error = none)
      ∧ (∀ call, (updateCardOrder cardIds office s call).state.loading = false)
      ∧ (∀ e, (updateCardOrder cardIds office s (.error e)).state.error = some (errMsg e ("카드 순서 변경 실패"))
          ∧ (updateCardOrder cardIds office s (.error e)).result = .error e))
    ∧ (∀ (office imageType fileName : String) (s : ImageState),
      (∀ call, ∃ cs, (uploadImage office imageType fileName s call).callState = some cs
        ∧ cs.loading = true ∧ cs.error = none)
      ∧ (∀ call, (uploadImage office imageType fileName s call).state.loading = false)
      ∧ (∀ e, (uploadImage office imageType fileName s (.error e)).state.error = some (errMsg e ("이미지 업로드 실패"))
          ∧ (uploadImage office imageType fileName s (.error e)).result = .error e))
    ∧ (∀ (office : String) (s : ImageState),
      (∀ call, ∃ cs, (uploadImagesBatch office s call).callState = some cs
        ∧ cs.loading = true ∧ cs.error = none)
      ∧ (∀ call, (uploadImagesBatch office s call).state.loading = false)
      ∧ (∀ e, (uploadImagesBatch office s (.error e)).state.error = some (errMsg e ("배치 이미지 업로드 실패"))
          ∧ (uploadImagesBatch office s (.error e)).result = .error e))
    ∧ (∀ (office imageType : String) (s : ImageState),
      (∀ call, ∃ cs, (deleteImage office imageType s call).callState = some cs
        ∧ cs.loading = true ∧ cs.error = none)
      ∧ (∀ call, (deleteImage office imageType s call).state.loading = false)
      ∧ (∀ e, (deleteImage office imageType s (.error e)).state.error = some (errMsg e ("이미지 삭제 실패"))
          ∧ (deleteImage office imageType s (.error e)).result = .error e))
    ∧ (∀ (office : String) (s : ColorState),
      (∀ call, ∃ cs, (fetchColorPalette office s call).callState = some cs
        ∧ cs.loading = true ∧ cs.error = none)
      ∧ (∀ call, (fetchColorPalette office s call).state.loading = false)
      ∧ (∀ e, (fetchColorPalette office s (.error e)).state.error = some (errMsg e ("색상 팔레트 조회 실패"))
          ∧ (fetchColorPalette office s (.error e)).result = .error e))
    ∧ (∀ (s : ColorState),
      (∀ call, ∃ cs, (fetchDefaultPalette s call).callState = some cs
        ∧ cs.loading = true ∧ cs.error = none)
      ∧ (∀ call, (fetchDefaultPalette s call).state.loading = false)
      ∧ (∀ e, (fetchDefaultPalette s (.error e)).state.error = some (errMsg e ("기본 팔레트 조회 실패"))
          ∧ (fetchDefaultPalette s (.error e)).result = .error e))
    ∧ (∀ (office : String) (s : ColorState) (call : Except JsError Unit),
      allColorsValid s.colorPalette = true →
      ∃ cs, (saveColorPalette office s call).callState = some cs
        ∧ cs.isDeploying = true ∧ cs.deployError = none
        ∧ cs.loading = s.loading ∧ cs.error = s.error)
    ∧ (∀ (office : String) (s : ColorState) (call : Except JsError Unit),
        allColorsValid s.colorPalette = true →
        (saveColorPalette office s call).state.isDeploying = false)
    ∧ (∀ (office : String) (s : ColorState) (e : JsError),
        allColorsValid s.colorPalette = true →
        (saveColorPalette office s (.error e)).state.deployError
            = some (errMsg e ("색상 팔레트 저장 실패"))
          ∧ (saveColorPalette office s (.error e)).result = .error e)
    ∧ (∀ (office : String) (s : ColorState) (call : Except JsError Unit),
        allColorsValid s.colorPalette = false →
        (saveColorPalette office s call).callState = none
          ∧ (saveColorPalette office s call).state.error
              = some ("유효하지 않은 색상이 있습니다")
          ∧ (saveColorPalette office s call).state.loading = s.loading
          ∧ (saveColorPalette office s call).result = .ok ()) :=
⟨
  (fun office s =>
    ⟨fun call => by cases call <;> exact ⟨_, rfl, rfl, rfl⟩,
      fun call => by cases call <;> rfl,
      fun e => ⟨rfl, rfl⟩⟩),
  (fun office s =>
    ⟨fun call => by cases call <;> exact ⟨_, rfl, rfl, rfl⟩,
      fun call => by cases call <;> rfl,
      fun e => ⟨rfl, rfl⟩⟩),
  (fun logoId office s =>
    ⟨fun call => by cases call <;> exact ⟨_, rfl, rfl, rfl⟩,
      fun call => by cases call <;> rfl,
      fun e => ⟨rfl, rfl⟩⟩),
  (fun logoId office s =>
    ⟨fun call => by cases call <;> exact ⟨_, rfl, rfl, rfl⟩,
      fun call => by cases call <;> rfl,
      fun e => ⟨rfl, rfl⟩⟩),
  (fun office s =>
    ⟨fun call => by cases call <;> exact ⟨_, rfl, rfl, rfl⟩,
      fun call => by cases call <;> rfl,
      fun e => ⟨rfl, rfl⟩⟩),
  (fun s =>
    ⟨fun call => by cases call <;> exact ⟨_, rfl, rfl, rfl⟩,
      fun call => by cases call <;> rfl,
      fun e => ⟨rfl, rfl⟩⟩),
  (fun s =>
    ⟨fun call => by cases call <;> exact ⟨_, rfl, rfl, rfl⟩,
      fun call => by cases call <;> rfl,
      fun e => ⟨rfl, rfl⟩⟩),
  (fun cardId office s =>
    ⟨fun call => by cases call <;> exact ⟨_, rfl, rfl, rfl⟩,
      fun call => by cases call <;> rfl,
      fun e => ⟨rfl, rfl⟩⟩),
  (fun cardId office s =>
    ⟨fun call => by cases call <;> exact ⟨_, rfl, rfl, rfl⟩,
      fun call => by cases call <;> rfl,
      fun e => ⟨rfl, rfl⟩⟩),
  (fun cardIds office s =>
    ⟨fun call => by cases call <;> exact ⟨_, rfl, rfl, rfl⟩,
      fun call => by cases call <;> rfl,
      fun e => ⟨rfl, rfl⟩⟩),
  (fun office imageType fileName s =>
    ⟨fun call => by cases call <;> exact ⟨_, rfl, rfl, rfl⟩,
      fun call => by cases call <;> rfl,
      fun e => ⟨rfl, rfl⟩⟩),
  (fun office s =>
    ⟨fun call => by cases call <;> exact ⟨_, rfl, rfl, rfl⟩,
      fun call => by cases call <;> rfl,
      fun e => ⟨rfl, rfl⟩⟩),
  (fun office imageType s =>
    ⟨fun call => by cases call <;> exact ⟨_, rfl, rfl, rfl⟩,
      fun call => by cases call <;> rfl,
      fun e => ⟨rfl, rfl⟩⟩),
  (fun office s =>
    ⟨fun call => by cases call <;> exact ⟨_, rfl, rfl, rfl⟩,
      fun call => by cases call <;> rfl,
      fun e => ⟨rfl, rfl⟩⟩),
  (fun s =>
    ⟨fun call => by cases call <;> exact ⟨_, rfl, rfl, rfl⟩,
      fun call => by cases call <;> rfl,
      fun e => ⟨rfl, rfl⟩⟩),
  (fun office s call hv =>
    ⟨{ s with isDeploying := true, deployError := none },
      by cases call <;> simp [saveColorPalette, hv], rfl, rfl, rfl, rfl⟩),
  (fun office s call hv => by cases call <;> simp [saveColorPalette, hv]),
  (fun office s e hv => by
    refine ⟨?_, ?_⟩ <;> simp [saveColorPalette, hv]),
  (fun office s call hv => by
    refine ⟨?_, ?_, ?_, ?_⟩ <;> simp [saveColorPalette, hv])⟩

/-- Claim C7 counterexample: the color store's palette upsert — a Resource
Store update operation — issues its server call from a state whose `loading`
is still false and whose stale `error` was not reset to null, refuting
"every operation sets `loading=true` and `error=null` on entry". -/
theorem claim_C7_counterexample :
    allColorsValid colorCexState.colorPalette = true ∧
    ((saveColorPalette ("ktds") colorCexState (.ok ())).callState.map
      (fun cs => cs.loading)) = some false ∧
    ((saveColorPalette ("ktds") colorCexState (.ok ())).callState.map
      (fun cs => cs.error)) = some (some ("previous error")) := by
  refine ⟨by decide, by decide, by decide⟩

/-- Claim C7 witness: the amended theorem applied to a concrete failing
card-list fetch and to a concrete invalid-palette save. -/
theorem claim_C7_witness :
    ((fetchCards ("ktds") emptyContentState (.error (.errorObj ("boom")))).state.error
        = some ("boom")
      ∧ (fetchCards ("ktds") emptyContentState (.error (.errorObj ("boom")))).result
        = .error (.errorObj ("boom")))
    ∧ allColorsValid colorInvalidState.colorPalette = false
    ∧ ((saveColorPalette ("ktds") colorInvalidState (.ok ())).callState = none
      ∧ (saveColorPalette ("ktds") colorInvalidState (.ok ())).state.error
          = some ("유효하지 않은 색상이 있습니다")
      ∧ (saveColorPalette ("ktds") colorInvalidState (.ok ())).state.loading
          = colorInvalidState.loading
      ∧ (saveColorPalette ("ktds") colorInvalidState (.ok ())).result = .ok ()) :=
  ⟨(claim_C7_theorem.2.2.2.2.1 ("ktds") emptyContentState).2.2 (.errorObj ("boom")),
    by decide,
    claim_C7_theorem.2.2.2.2.2.2.2.2.2.2.2.2.2.2.2.2.2.2 ("ktds") colorInvalidState
      (.ok ()) (by decide)⟩
